import Mathlib

/-!
Shallow embedding of `src/train_para.py` (training driver `main` and the
`evaluate` routine) and proofs about the spec's claims.

Modelling conventions:
* Tensors are lists of integers (`Tensor`); batched tensors are lists of rows.
* The observable behaviour of a run of `main` is a trace of events plus an
  outcome (`exited code` for `exit(1)`, `returned` for a normal return, and
  `raised e` for an uncaught Python exception).
* Python name resolution is explicit: `main`'s local environment `mainNames`
  lists exactly the names bound by the uncommented statements of `main`.
  The statements `optimizer.zero_grad()` (line 149) and
  `model(cw_idxs, qw_idxs)` (line 152) reference names whose defining
  statements (lines 95-105) are commented out in the source, so evaluating
  them raises `NameError`, modelled via `resolveName`.
* External components that live outside `src/` (the `Paraphraser` forward and
  the `idx2word` dictionary) are abstract parameters of the configuration.
-/

namespace TrainPara

/-- A tensor modelled as a list of integer entries. -/
abbrev Tensor := List Int

/-- One batch yielded by `train_loader` via `collate_fn_para`: the ten fields
unpacked at line 118 of `train_para.py`.  Batched index tensors are lists of
rows, so `size(0)` is the list length. -/
structure Batch where
  cw_idxs : List Tensor
  cc_idxs : List Tensor
  qw_idxs : List Tensor
  qc_idxs : List Tensor
  y1 : Tensor
  y2 : Tensor
  cphr_idxs : List Tensor
  qphr_idxs : List Tensor
  qphr_types : List Tensor
  ids : Tensor
  deriving DecidableEq

/-- Uncaught Python exceptions relevant to `main`. -/
inductive PyErr where
  | nameError (n : String)
  | zeroDivision
  deriving DecidableEq

/-- Observable events of a run of `main`. -/
inductive Event where
  | logInfo
  | logError
  | buildBiDAF
  | loadCheckpoint (path : String)
  | bidafEvalMode
  | buildParaphraser
  | buildTrainDataset
  | buildDevDataset
  | loadIdx2Word
  | epochStart (epoch : Nat)
  | paraForward (q qt c : List Tensor)
  | printSentence (ws : List String)
  | bidafForward (cw qw : List Tensor)
  | lossBackward
  | clipGrad
  | optStep
  | schedStep
  | emaUpdate
  | evaluateCall
  | saverSave
  deriving DecidableEq

/-- How a run of `main` ends. -/
inductive Outcome where
  | exited (code : Nat)
  | returned
  | raised (e : PyErr)
  deriving DecidableEq

/-- Configuration of one run of `main`: the argument fields read by `main`,
the data the loaders yield, and the external models. -/
structure Config where
  load_path : String
  short_test : Bool
  hidden_size : Nat
  num_epochs : Nat
  eval_steps : Int
  /-- `len(train_dataset)` -/
  trainLen : Nat
  /-- the batches yielded by `train_loader` in one epoch -/
  batches : List Batch
  /-- the `Paraphraser` forward pass (from `model_para.py`, outside `src/`) -/
  para : List Tensor → List Tensor → List Tensor → List Tensor
  /-- the `idx2word_dict` mapping (loaded by `setup.load`, outside `src/`) -/
  idx2word : Int → String
  /-- BiDAF parameters as built at line 52 -/
  bidafInit : Tensor
  /-- BiDAF parameters as restored by `util.load_model` at line 65 -/
  bidafLoaded : Tensor

/-- Result of a run of `main`. -/
structure RunResult where
  trace : List Event
  outcome : Outcome
  /-- BiDAF parameters at the moment the process ends -/
  bidafParams : Tensor
  /-- `args.hidden_size` at the moment the process ends -/
  hidden_size : Nat

/-- The names bound by the statements of `main` that are not commented out
(lines 30-147 of `train_para.py`).  `optimizer`, `scheduler`, `ema`, `saver`
and `model` are absent: their defining statements (lines 95-105) are
commented out. -/
def mainNames : List String :=
  ["args", "log", "tbx", "device", "word_vectors", "bidaf_model",
   "paraphaser_model", "train_dataset", "train_loader", "dev_dataset",
   "dev_loader", "idx2word_dict", "step", "steps_till_eval", "epoch",
   "cw_idxs", "cc_idxs", "qw_idxs", "qc_idxs", "y1", "y2",
   "cphr_idxs", "qphr_idxs", "qphr_types", "ids", "batch_size",
   "paraphrased", "idx", "p", "non_zeros", "sentence_as_list",
   "progress_bar"]

/-- Python name resolution: referencing a name not bound in the environment
raises `NameError`. -/
def resolveName (env : List String) (n : String) : Except PyErr Unit :=
  if n ∈ env then Except.ok () else Except.error (PyErr.nameError n)

/-- Lines 140-142: keep the non-zero entries of a prediction row and map them
through `idx2word_dict`. -/
def decode (idx2word : Int → String) (p : Tensor) : List String :=
  (p.filter (fun w => w ≠ 0)).map idx2word

/-- Lines 174-176: decrement `steps_till_eval` by the batch size; when it
drops to `0` or below, trigger evaluation and reset the counter to
`args.eval_steps`.  Returns (triggered?, new counter). -/
def stepDecr (evalSteps s : Int) (bs : Nat) : Bool × Int :=
  let s2 := s - bs
  if s2 ≤ 0 then (true, evalSteps) else (false, s2)

/-- How the body of the batch loop leaves the loop (or does not). -/
inductive BatchExit where
  | cont
  | ret
  | err (e : PyErr)
  deriving DecidableEq

/-- Lines 118-201: the body of the batch loop for one batch.  The paraphraser
forward (line 138) and the printing loop (lines 139-143) run unconditionally;
in short-test mode the body then returns from `main` (lines 146-147);
otherwise `optimizer.zero_grad()` (line 149) resolves the name `optimizer`,
which is unbound, raising `NameError`.  The remainder (lines 152-201) is kept
for fidelity but is unreachable.  Returns (events, new `steps_till_eval`,
exit). -/
def processBatch (cfg : Config) (stEval : Int) (b : Batch) :
    List Event × Int × BatchExit :=
  let bs : Nat := b.cw_idxs.length
  let paraphrased := cfg.para b.qphr_idxs b.qphr_types b.cphr_idxs
  let evs := Event.paraForward b.qphr_idxs b.qphr_types b.cphr_idxs
      :: paraphrased.map (fun p => Event.printSentence (decode cfg.idx2word p))
  if cfg.short_test then
    (evs, stEval, BatchExit.ret)
  else
    match resolveName mainNames "optimizer" with
    | Except.error e => (evs, stEval, BatchExit.err e)
    | Except.ok _ =>
      match resolveName mainNames "model" with
      | Except.error e => (evs, stEval, BatchExit.err e)
      | Except.ok _ =>
        let evs2 := evs ++ [Event.lossBackward, Event.clipGrad, Event.optStep,
                            Event.schedStep, Event.emaUpdate]
        let t := stepDecr cfg.eval_steps stEval bs
        if t.1 then
          (evs2 ++ [Event.evaluateCall, Event.saverSave], t.2, BatchExit.cont)
        else
          (evs2, t.2, BatchExit.cont)

/-- Line 118: iterate the batch loop over the batches of one epoch. -/
def runBatches (cfg : Config) (stEval : Int) :
    List Batch → List Event × Int × BatchExit
  | [] => ([], stEval, BatchExit.cont)
  | b :: bs =>
    let r := processBatch cfg stEval b
    match r.2.2 with
    | BatchExit.cont =>
      let r2 := runBatches cfg r.2.1 bs
      (r.1 ++ r2.1, r2.2.1, r2.2.2)
    | ex => (r.1, r.2.1, ex)

/-- Lines 113-201: the `while epoch != args.num_epochs` loop, one recursive
call per remaining iteration; `epoch` is the counter value before the
iteration, incremented at line 114 before the epoch's work. -/
def runEpochs (cfg : Config) (stEval : Int) (epoch : Nat) :
    Nat → List Event × BatchExit
  | 0 => ([], BatchExit.cont)
  | n + 1 =>
    let r := runBatches cfg stEval cfg.batches
    match r.2.2 with
    | BatchExit.cont =>
      let r2 := runEpochs cfg r.2.1 (epoch + 1) n
      (Event.epochStart (epoch + 1) :: r.1 ++ r2.1, r2.2)
    | ex => (Event.epochStart (epoch + 1) :: r.1, ex)

/-- Line 110: `epoch = step // len(train_dataset)` with `step = 0`; Python's
`//` on an empty dataset raises `ZeroDivisionError`. -/
def initialEpoch (n : Nat) : Except PyErr Nat :=
  if n = 0 then Except.error PyErr.zeroDivision else Except.ok (0 / n)

/-- Map the way the loop ended to the outcome of `main`: falling off the end
of the loop and the `return` at line 147 both return normally; an uncaught
exception propagates. -/
def exitToOutcome : BatchExit → Outcome
  | BatchExit.cont => Outcome.returned
  | BatchExit.ret => Outcome.returned
  | BatchExit.err e => Outcome.raised e

/-- Lines 70-201 of `main`, common to the short-test and checkpoint-loading
paths: build the `Paraphraser`, the two datasets and `idx2word_dict`, compute
the initial epoch, then run the epoch loop.  `hs` is `args.hidden_size` and
`params` the BiDAF parameters at this point; nothing below line 70 writes
either. -/
def mainBody (cfg : Config) (hs : Nat) (params : Tensor) (pre : List Event) :
    RunResult :=
  let evs := pre ++ [Event.buildParaphraser, Event.buildTrainDataset,
                     Event.buildDevDataset, Event.loadIdx2Word]
  match initialEpoch cfg.trainLen with
  | Except.error e => ⟨evs, Outcome.raised e, params, hs⟩
  | Except.ok e0 =>
    let r := runEpochs cfg cfg.eval_steps e0 (cfg.num_epochs - e0)
    ⟨evs ++ r.1, exitToOutcome r.2, params, hs⟩

/-- Lines 30-201: a whole run of `main`.  After the setup and the BiDAF
construction (lines 30-55), the gate at lines 57-67: in short-test mode set
`hidden_size` to 5 and skip loading; otherwise, with no `load_path`, log an
error and `exit(1)`; otherwise load the checkpoint and put BiDAF in eval
mode. -/
def runMain (cfg : Config) : RunResult :=
  let pre := [Event.logInfo, Event.buildBiDAF]
  if cfg.short_test then
    mainBody cfg 5 cfg.bidafInit pre
  else if cfg.load_path = "" then
    ⟨pre ++ [Event.logError], Outcome.exited 1, cfg.bidafInit, cfg.hidden_size⟩
  else
    mainBody cfg cfg.hidden_size cfg.bidafLoaded
      (pre ++ [Event.loadCheckpoint cfg.load_path, Event.bidafEvalMode])

/-- Lines 107-114 in isolation: the `while epoch != args.num_epochs` loop as
a pure counter, with a fuel bound so that a non-terminating loop is `none`:
`epochLoopFuel fuel epoch numEpochs` is `some k` when the loop starting at
counter `epoch` exits after exactly `k` iterations within `fuel` steps. -/
def epochLoopFuel : Nat → Nat → Nat → Option Nat
  | 0, _, _ => none
  | f + 1, epoch, numEpochs =>
    if epoch = numEpochs then some 0
    else (epochLoopFuel f (epoch + 1) numEpochs).map (· + 1)

/-- Lines 243-248 of `evaluate`: assemble the `results_list`, appending the
`AvNA` entry exactly when `use_squad_v2` holds; `OrderedDict` keeps the list
order of the (distinct) keys. -/
def resultsList {α : Type} (useV2 : Bool) (nll f1 em avna : α) :
    List (String × α) :=
  let base := [("NLL", nll), ("F1", f1), ("EM", em)]
  if useV2 then base ++ [("AvNA", avna)] else base

/-- The two framework mode flags `evaluate` manipulates. -/
structure TorchState where
  trainMode : Bool
  gradEnabled : Bool
  deriving DecidableEq

/-- Result of a run of `evaluate` as far as the mode flags go. -/
structure EvalModes where
  /-- value of the gradient flag while the held-out split is iterated -/
  duringGrad : Bool
  /-- the flags when `evaluate` returns or its exception propagates -/
  final : TorchState
  /-- whether the iteration raised (and the exception propagated) -/
  raised : Bool
  deriving DecidableEq

/-- Lines 204-250 of `evaluate`, restricted to the mode flags.
`model.eval()` (line 207) clears the training flag; `with torch.no_grad()`
(line 211) clears the gradient flag for the iteration and, being a context
manager, restores it even when the loop body raises; `model.train()`
(line 240) sets the training flag back, but it sits after the `with` block
with no `try`/`finally`, so it does not run when the iteration raises. -/
def runEvaluateModes (s0 : TorchState) (iterRaises : Bool) : EvalModes :=
  let s1 : TorchState := { s0 with trainMode := false }
  let sIn : TorchState := { s1 with gradEnabled := false }
  if iterRaises then
    { duringGrad := sIn.gradEnabled
      final := { sIn with gradEnabled := s1.gradEnabled }
      raised := true }
  else
    let s2 : TorchState := { sIn with gradEnabled := s1.gradEnabled }
    { duringGrad := sIn.gradEnabled
      final := { s2 with trainMode := true }
      raised := false }

/-- Classifier: events emitted by the setup part of `main` (lines 30-92). -/
def Event.isSetupEv : Event → Bool
  | Event.logInfo | Event.logError | Event.buildBiDAF
  | Event.loadCheckpoint _ | Event.bidafEvalMode | Event.buildParaphraser
  | Event.buildTrainDataset | Event.buildDevDataset
  | Event.loadIdx2Word => true
  | _ => false

/-- Classifier: the epoch-start log event. -/
def Event.isEpochStart : Event → Bool
  | Event.epochStart _ => true
  | _ => false

/-- Classifier: events the reachable part of the batch body emits. -/
def Event.isBatchEv : Event → Bool
  | Event.paraForward _ _ _ | Event.printSentence _ => true
  | _ => false

/-- Classifier: the paraphraser forward event. -/
def Event.isParaForward : Event → Bool
  | Event.paraForward _ _ _ => true
  | _ => false

/-- Classifier: a forward pass of the BiDAF model. -/
def Event.isBidafForward : Event → Bool
  | Event.bidafForward _ _ => true
  | _ => false

/-- Classifier: events performed by the error-exit path (lines 30-62). -/
def Event.isPreGateEv : Event → Bool
  | Event.logInfo | Event.logError | Event.buildBiDAF => true
  | _ => false

section TraceLemmas

/-- The name `optimizer` is unbound in `main`. -/
theorem resolveName_optimizer :
    resolveName mainNames "optimizer" =
      Except.error (PyErr.nameError "optimizer") := rfl

/-- The reachable batch body emits exactly the paraphraser forward and the
printed sentences, in both modes. -/
theorem processBatch_fst (cfg : Config) (st : Int) (b : Batch) :
    (processBatch cfg st b).1 =
      Event.paraForward b.qphr_idxs b.qphr_types b.cphr_idxs
        :: (cfg.para b.qphr_idxs b.qphr_types b.cphr_idxs).map
             (fun p => Event.printSentence (decode cfg.idx2word p)) := by
  unfold processBatch
  cases cfg.short_test <;> simp [resolveName_optimizer]

/-- The batch body leaves `steps_till_eval` unchanged (the decrement at
line 174 is unreachable). -/
theorem processBatch_stEval (cfg : Config) (st : Int) (b : Batch) :
    (processBatch cfg st b).2.1 = st := by
  unfold processBatch
  cases cfg.short_test <;> simp [resolveName_optimizer]

/-- In short-test mode the batch body returns from `main`; otherwise it
raises `NameError` on the unbound `optimizer`. -/
theorem processBatch_exit (cfg : Config) (st : Int) (b : Batch) :
    (processBatch cfg st b).2.2 =
      if cfg.short_test then BatchExit.ret
      else BatchExit.err (PyErr.nameError "optimizer") := by
  unfold processBatch
  cases cfg.short_test <;> simp [resolveName_optimizer]

/-- Every event of the batch body is a batch event. -/
theorem processBatch_events (cfg : Config) (st : Int) (b : Batch) :
    ∀ e ∈ (processBatch cfg st b).1, e.isBatchEv = true := by
  rw [processBatch_fst]
  intro e he
  rcases List.mem_cons.mp he with h | h
  · subst h; rfl
  · rcases List.mem_map.mp h with ⟨p, _, hp⟩
    subst hp; rfl

/-- Every event of the batch loop is a batch event. -/
theorem runBatches_events (cfg : Config) (st : Int) (bs : List Batch) :
    ∀ e ∈ (runBatches cfg st bs).1, e.isBatchEv = true := by
  induction bs generalizing st with
  | nil => intro e he; simp [runBatches] at he
  | cons b bs ih =>
    intro e he
    rw [runBatches] at he
    rcases hx : (processBatch cfg st b).2.2 with _ | _ | err
    · rw [hx] at he
      simp only [List.mem_append] at he
      rcases he with h | h
      · exact processBatch_events cfg st b e h
      · exact ih _ e h
    · rw [hx] at he
      exact processBatch_events cfg st b e he
    · rw [hx] at he
      exact processBatch_events cfg st b e he

/-- Every event of the epoch loop is an epoch start or a batch event. -/
theorem runEpochs_events (cfg : Config) (st : Int) (ep n : Nat) :
    ∀ e ∈ (runEpochs cfg st ep n).1,
      e.isEpochStart = true ∨ e.isBatchEv = true := by
  induction n generalizing st ep with
  | zero => intro e he; simp [runEpochs] at he
  | succ n ih =>
    intro e he
    rw [runEpochs] at he
    rcases hx : (runBatches cfg st cfg.batches).2.2 with _ | _ | err
    all_goals rw [hx] at he
    · rcases List.mem_cons.mp he with h | h
      · subst h; left; rfl
      · rcases List.mem_append.mp h with h2 | h2
        · exact Or.inr (runBatches_events cfg st cfg.batches e h2)
        · exact ih _ _ e h2
    · rcases List.mem_cons.mp he with h | h
      · subst h; left; rfl
      · exact Or.inr (runBatches_events cfg st cfg.batches e h)
    · rcases List.mem_cons.mp he with h | h
      · subst h; left; rfl
      · exact Or.inr (runBatches_events cfg st cfg.batches e h)

/-- `mainBody` keeps the BiDAF parameters it is given. -/
theorem mainBody_params (cfg : Config) (hs : Nat) (params : Tensor)
    (pre : List Event) : (mainBody cfg hs params pre).bidafParams = params := by
  unfold mainBody
  rcases h : initialEpoch cfg.trainLen with e | e0 <;> simp

/-- `mainBody` keeps the `hidden_size` it is given. -/
theorem mainBody_hs (cfg : Config) (hs : Nat) (params : Tensor)
    (pre : List Event) : (mainBody cfg hs params pre).hidden_size = hs := by
  unfold mainBody
  rcases h : initialEpoch cfg.trainLen with e | e0 <;> simp

/-- The four build events emitted at the top of `mainBody` are setup
events. -/
theorem setup4_events :
    ∀ e ∈ [Event.buildParaphraser, Event.buildTrainDataset,
           Event.buildDevDataset, Event.loadIdx2Word],
      e.isSetupEv = true := by decide

/-- Events of `mainBody` are setup events, epoch starts or batch events,
provided the prefix events are setup events. -/
theorem mainBody_events (cfg : Config) (hs : Nat) (params : Tensor)
    (pre : List Event) (hpre : ∀ e ∈ pre, e.isSetupEv = true) :
    ∀ e ∈ (mainBody cfg hs params pre).trace,
      e.isSetupEv = true ∨ e.isEpochStart = true ∨ e.isBatchEv = true := by
  unfold mainBody
  rcases hinit : initialEpoch cfg.trainLen with err | e0 <;>
    intro e he <;> simp only [List.mem_append] at he
  · rcases he with h | h
    · exact Or.inl (hpre e h)
    · exact Or.inl (setup4_events e h)
  · rcases he with (h | h) | h
    · exact Or.inl (hpre e h)
    · exact Or.inl (setup4_events e h)
    · rcases runEpochs_events cfg cfg.eval_steps e0 (cfg.num_epochs - e0) e h
        with h2 | h2
      · exact Or.inr (Or.inl h2)
      · exact Or.inr (Or.inr h2)

/-- Every event of a whole run is a setup event, an epoch start, or a batch
event: in particular no loss, optimizer, scheduler, EMA, evaluate or
checkpoint-save event is ever emitted. -/
theorem runMain_events (cfg : Config) :
    ∀ e ∈ (runMain cfg).trace,
      e.isSetupEv = true ∨ e.isEpochStart = true ∨ e.isBatchEv = true := by
  unfold runMain
  by_cases hst : cfg.short_test = true
  · simp only [hst, if_true]
    exact mainBody_events cfg 5 cfg.bidafInit _ (by decide)
  · simp only [Bool.not_eq_true] at hst
    simp only [hst, Bool.false_eq_true, if_false]
    by_cases hl : cfg.load_path = ""
    · simp only [hl, if_true]
      intro e he
      exact Or.inl (by revert he; revert e; decide)
    · simp only [hl, if_false]
      refine mainBody_events cfg cfg.hidden_size cfg.bidafLoaded _ ?_
      intro e he
      simp only [List.mem_append, List.mem_cons, List.not_mem_nil,
                 or_false] at he
      rcases he with (h | h) | (h | h) <;> subst h <;> rfl

/-- An event that is neither a setup event, an epoch start, nor a batch
event never appears in a run's trace. -/
theorem runMain_not_mem (cfg : Config) (e : Event)
    (h1 : e.isSetupEv = false) (h2 : e.isEpochStart = false)
    (h3 : e.isBatchEv = false) : e ∉ (runMain cfg).trace := by
  intro he
  rcases runMain_events cfg e he with h | h | h
  · rw [h1] at h; cases h
  · rw [h2] at h; cases h
  · rw [h3] at h; cases h

/-- A paraphraser-forward event of the batch body carries exactly the raw
phrase tensors of that batch. -/
theorem processBatch_paraForward (cfg : Config) (st : Int) (b : Batch)
    (q qt c : List Tensor)
    (h : Event.paraForward q qt c ∈ (processBatch cfg st b).1) :
    q = b.qphr_idxs ∧ qt = b.qphr_types ∧ c = b.cphr_idxs := by
  rw [processBatch_fst] at h
  rcases List.mem_cons.mp h with h2 | h2
  · exact ⟨(Event.paraForward.injEq _ _ _ _ _ _).mp h2 |>.1,
           (Event.paraForward.injEq _ _ _ _ _ _).mp h2 |>.2.1,
           (Event.paraForward.injEq _ _ _ _ _ _).mp h2 |>.2.2⟩
  · rcases List.mem_map.mp h2 with ⟨p, _, hp⟩
    cases hp

/-- A printed sentence of the batch body is the decoding of a row of the
paraphraser's output on that batch's raw phrase tensors. -/
theorem processBatch_printSentence (cfg : Config) (st : Int) (b : Batch)
    (ws : List String)
    (h : Event.printSentence ws ∈ (processBatch cfg st b).1) :
    ∃ p ∈ cfg.para b.qphr_idxs b.qphr_types b.cphr_idxs,
      ws = decode cfg.idx2word p := by
  rw [processBatch_fst] at h
  rcases List.mem_cons.mp h with h2 | h2
  · cases h2
  · rcases List.mem_map.mp h2 with ⟨p, hp, he⟩
    exact ⟨p, hp, ((Event.printSentence.injEq _ _).mp he).symm⟩

/-- A paraphraser-forward event of the batch loop comes from one of its
batches. -/
theorem runBatches_paraForward (cfg : Config) (st : Int) (bs : List Batch)
    (q qt c : List Tensor)
    (h : Event.paraForward q qt c ∈ (runBatches cfg st bs).1) :
    ∃ b ∈ bs, q = b.qphr_idxs ∧ qt = b.qphr_types ∧ c = b.cphr_idxs := by
  induction bs generalizing st with
  | nil => simp [runBatches] at h
  | cons b rest ih =>
    rw [runBatches] at h
    rcases hx : (processBatch cfg st b).2.2 with _ | _ | err <;> rw [hx] at h
    · rcases List.mem_append.mp h with h2 | h2
      · exact ⟨b, List.mem_cons_self b rest,
               processBatch_paraForward cfg st b q qt c h2⟩
      · rcases ih _ h2 with ⟨b2, hb2, hq⟩
        exact ⟨b2, List.mem_cons_of_mem b hb2, hq⟩
    · exact ⟨b, List.mem_cons_self b rest,
             processBatch_paraForward cfg st b q qt c h⟩
    · exact ⟨b, List.mem_cons_self b rest,
             processBatch_paraForward cfg st b q qt c h⟩

/-- A printed sentence of the batch loop decodes a paraphraser output row on
one of its batches. -/
theorem runBatches_printSentence (cfg : Config) (st : Int) (bs : List Batch)
    (ws : List String)
    (h : Event.printSentence ws ∈ (runBatches cfg st bs).1) :
    ∃ b ∈ bs, ∃ p ∈ cfg.para b.qphr_idxs b.qphr_types b.cphr_idxs,
      ws = decode cfg.idx2word p := by
  induction bs generalizing st with
  | nil => simp [runBatches] at h
  | cons b rest ih =>
    rw [runBatches] at h
    rcases hx : (processBatch cfg st b).2.2 with _ | _ | err <;> rw [hx] at h
    · rcases List.mem_append.mp h with h2 | h2
      · exact ⟨b, List.mem_cons_self b rest,
               processBatch_printSentence cfg st b ws h2⟩
      · rcases ih _ h2 with ⟨b2, hb2, hq⟩
        exact ⟨b2, List.mem_cons_of_mem b hb2, hq⟩
    · exact ⟨b, List.mem_cons_self b rest,
             processBatch_printSentence cfg st b ws h⟩
    · exact ⟨b, List.mem_cons_self b rest,
             processBatch_printSentence cfg st b ws h⟩

/-- A paraphraser-forward event of the epoch loop comes from a configured
batch. -/
theorem runEpochs_paraForward (cfg : Config) (st : Int) (ep n : Nat)
    (q qt c : List Tensor)
    (h : Event.paraForward q qt c ∈ (runEpochs cfg st ep n).1) :
    ∃ b ∈ cfg.batches,
      q = b.qphr_idxs ∧ qt = b.qphr_types ∧ c = b.cphr_idxs := by
  induction n generalizing st ep with
  | zero => simp [runEpochs] at h
  | succ n ih =>
    rw [runEpochs] at h
    rcases hx : (runBatches cfg st cfg.batches).2.2 with _ | _ | err <;>
      rw [hx] at h <;> rcases List.mem_cons.mp h with h2 | h2
    · cases h2
    · rcases List.mem_append.mp h2 with h3 | h3
      · exact runBatches_paraForward cfg st cfg.batches q qt c h3
      · exact ih _ _ h3
    · cases h2
    · exact runBatches_paraForward cfg st cfg.batches q qt c h2
    · cases h2
    · exact runBatches_paraForward cfg st cfg.batches q qt c h2

/-- A printed sentence of the epoch loop decodes a paraphraser output row on
a configured batch. -/
theorem runEpochs_printSentence (cfg : Config) (st : Int) (ep n : Nat)
    (ws : List String)
    (h : Event.printSentence ws ∈ (runEpochs cfg st ep n).1) :
    ∃ b ∈ cfg.batches, ∃ p ∈ cfg.para b.qphr_idxs b.qphr_types b.cphr_idxs,
      ws = decode cfg.idx2word p := by
  induction n generalizing st ep with
  | zero => simp [runEpochs] at h
  | succ n ih =>
    rw [runEpochs] at h
    rcases hx : (runBatches cfg st cfg.batches).2.2 with _ | _ | err <;>
      rw [hx] at h <;> rcases List.mem_cons.mp h with h2 | h2
    · cases h2
    · rcases List.mem_append.mp h2 with h3 | h3
      · exact runBatches_printSentence cfg st cfg.batches ws h3
      · exact ih _ _ h3
    · cases h2
    · exact runBatches_printSentence cfg st cfg.batches ws h2
    · cases h2
    · exact runBatches_printSentence cfg st cfg.batches ws h2

/-- A non-setup event of a run was emitted by the epoch loop: in particular
the run got past the gate and past the epoch initialisation. -/
theorem mainBody_nonsetup (cfg : Config) (hs : Nat) (params : Tensor)
    (pre : List Event) (hpre : ∀ e ∈ pre, e.isSetupEv = true) (e : Event)
    (hns : e.isSetupEv = false) (h : e ∈ (mainBody cfg hs params pre).trace) :
    ∃ e0, initialEpoch cfg.trainLen = Except.ok e0 ∧
      e ∈ (runEpochs cfg cfg.eval_steps e0 (cfg.num_epochs - e0)).1 := by
  unfold mainBody at h
  rcases hinit : initialEpoch cfg.trainLen with err | e0 <;> rw [hinit] at h <;>
    simp only [List.mem_append] at h
  · rcases h with h | h
    · rw [hpre e h] at hns; cases hns
    · rw [setup4_events e h] at hns; cases hns
  · rcases h with (h | h) | h
    · rw [hpre e h] at hns; cases hns
    · rw [setup4_events e h] at hns; cases hns
    · exact ⟨e0, rfl, h⟩

/-- The prefix of events before line 70 in the checkpoint-loading path is
all setup events. -/
theorem preLoad_events (p : String) :
    ∀ e ∈ [Event.logInfo, Event.buildBiDAF] ++
            [Event.loadCheckpoint p, Event.bidafEvalMode],
      e.isSetupEv = true := by
  intro e he
  simp only [List.mem_append, List.mem_cons, List.not_mem_nil,
             or_false] at he
  rcases he with (h | h) | (h | h) <;> subst h <;> rfl

/-- A non-setup event of a run was emitted by the epoch loop. -/
theorem runMain_nonsetup (cfg : Config) (e : Event)
    (hns : e.isSetupEv = false) (h : e ∈ (runMain cfg).trace) :
    ∃ e0, initialEpoch cfg.trainLen = Except.ok e0 ∧
      e ∈ (runEpochs cfg cfg.eval_steps e0 (cfg.num_epochs - e0)).1 := by
  unfold runMain at h
  by_cases hst : cfg.short_test = true
  · simp only [hst, if_true] at h
    exact mainBody_nonsetup cfg 5 cfg.bidafInit _ (by decide) e hns h
  · simp only [Bool.not_eq_true] at hst
    simp only [hst, Bool.false_eq_true, if_false] at h
    by_cases hl : cfg.load_path = ""
    · simp only [hl, if_true] at h
      have h3 : ∀ x ∈ [Event.logInfo, Event.buildBiDAF] ++ [Event.logError],
          Event.isSetupEv x = true := by decide
      rw [h3 e h] at hns; cases hns
    · simp only [hl, if_false] at h
      exact mainBody_nonsetup cfg cfg.hidden_size cfg.bidafLoaded _
        (preLoad_events cfg.load_path) e hns h

/-- Every paraphraser forward of a whole run consumes exactly the raw phrase
tensors of one of the configured batches. -/
theorem runMain_paraForward (cfg : Config) (q qt c : List Tensor)
    (h : Event.paraForward q qt c ∈ (runMain cfg).trace) :
    ∃ b ∈ cfg.batches,
      q = b.qphr_idxs ∧ qt = b.qphr_types ∧ c = b.cphr_idxs := by
  rcases runMain_nonsetup cfg (Event.paraForward q qt c) rfl h with ⟨e0, _, h2⟩
  exact runEpochs_paraForward cfg cfg.eval_steps e0 _ q qt c h2

/-- Every printed sentence of a whole run decodes a row of the paraphraser's
output on one of the configured batches. -/
theorem runMain_printSentence (cfg : Config) (ws : List String)
    (h : Event.printSentence ws ∈ (runMain cfg).trace) :
    ∃ b ∈ cfg.batches, ∃ p ∈ cfg.para b.qphr_idxs b.qphr_types b.cphr_idxs,
      ws = decode cfg.idx2word p := by
  rcases runMain_nonsetup cfg (Event.printSentence ws) rfl h with ⟨e0, _, h2⟩
  exact runEpochs_printSentence cfg cfg.eval_steps e0 _ ws h2

/-- For a non-empty dataset the initial epoch computation succeeds with 0. -/
theorem initialEpoch_pos (n : Nat) (h : 0 < n) :
    initialEpoch n = Except.ok 0 := by
  unfold initialEpoch
  rw [if_neg (Nat.pos_iff_ne_zero.mp h), Nat.zero_div]

/-- The batch body emits exactly one paraphraser forward. -/
theorem processBatch_count (cfg : Config) (st : Int) (b : Batch) :
    (processBatch cfg st b).1.countP Event.isParaForward = 1 := by
  rw [processBatch_fst, List.countP_cons_of_pos _ _ rfl]
  rw [List.countP_eq_zero.mpr]
  intro e he
  rcases List.mem_map.mp he with ⟨p, _, hp⟩
  subst hp
  simp [Event.isParaForward]

/-- In short-test mode the batch loop stops after the first batch with a
`return`. -/
theorem runBatches_short (cfg : Config) (hst : cfg.short_test = true)
    (st : Int) (b : Batch) (rest : List Batch) :
    runBatches cfg st (b :: rest) =
      ((processBatch cfg st b).1, st, BatchExit.ret) := by
  rw [runBatches]
  rw [show (processBatch cfg st b).2.2 = BatchExit.ret by
        rw [processBatch_exit, hst]; rfl]
  rw [processBatch_stEval]

/-- The batch loop over an empty batch list does nothing. -/
theorem runBatches_nil (cfg : Config) (st : Int) :
    runBatches cfg st [] = ([], st, BatchExit.cont) := rfl

/-- In short-test mode the epoch loop emits at most one paraphraser forward
and ends in a normal continue or the early `return`. -/
theorem runEpochs_short (cfg : Config) (hst : cfg.short_test = true)
    (st : Int) (ep n : Nat) :
    (runEpochs cfg st ep n).1.countP Event.isParaForward ≤ 1 ∧
      ((runEpochs cfg st ep n).2 = BatchExit.cont ∨
       (runEpochs cfg st ep n).2 = BatchExit.ret) := by
  induction n generalizing st ep with
  | zero => exact ⟨by simp [runEpochs], Or.inl rfl⟩
  | succ n ih =>
    rcases hb : cfg.batches with _ | ⟨b, rest⟩
    · rw [runEpochs, hb, runBatches_nil]
      dsimp only
      have h2 := ih st (ep + 1)
      constructor
      · rw [List.countP_append,
            show List.countP Event.isParaForward
              [Event.epochStart (ep + 1)] = 0 from rfl, Nat.zero_add]
        exact h2.1
      · exact h2.2
    · rw [runEpochs, hb, runBatches_short cfg hst st b rest]
      dsimp only
      constructor
      · rw [List.countP_cons_of_neg Event.isParaForward _
              (by simp [Event.isParaForward]), processBatch_count]
      · exact Or.inr rfl

/-- With an empty batch list the epoch loop runs all its iterations, one
epoch-start event each, and falls through. -/
theorem runEpochs_nil (cfg : Config) (hb : cfg.batches = [])
    (st : Int) (ep n : Nat) :
    (runEpochs cfg st ep n).1.countP Event.isEpochStart = n ∧
      (runEpochs cfg st ep n).2 = BatchExit.cont := by
  induction n generalizing st ep with
  | zero => exact ⟨by simp [runEpochs], rfl⟩
  | succ n ih =>
    rw [runEpochs, hb, runBatches_nil]
    dsimp only
    have h2 := ih st (ep + 1)
    constructor
    · rw [List.countP_append,
          show List.countP Event.isEpochStart
            [Event.epochStart (ep + 1)] = 1 from rfl, h2.1]
      exact Nat.add_comm 1 n
    · exact h2.2

/-- The loop never produces an `exit(code)` outcome: only the gate at
line 62 does. -/
theorem exitToOutcome_ne (x : BatchExit) (c : Nat) :
    exitToOutcome x ≠ Outcome.exited c := by
  cases x <;> simp [exitToOutcome]

/-- `mainBody` never produces an `exit(code)` outcome. -/
theorem mainBody_not_exited (cfg : Config) (hs : Nat) (params : Tensor)
    (pre : List Event) (c : Nat) :
    (mainBody cfg hs params pre).outcome ≠ Outcome.exited c := by
  unfold mainBody
  rcases hinit : initialEpoch cfg.trainLen with err | e0
  · simp
  · exact exitToOutcome_ne _ c

/-- Outside short-test mode a non-empty batch loop raises `NameError` on
`optimizer` during its first batch. -/
theorem runBatches_err (cfg : Config) (hst : cfg.short_test = false)
    (st : Int) (b : Batch) (rest : List Batch) :
    runBatches cfg st (b :: rest) =
      ((processBatch cfg st b).1, st,
        BatchExit.err (PyErr.nameError "optimizer")) := by
  rw [runBatches]
  rw [show (processBatch cfg st b).2.2 =
        BatchExit.err (PyErr.nameError "optimizer") by
      rw [processBatch_exit, hst]; rfl]
  rw [processBatch_stEval]

/-- Outside short-test mode, with a non-empty batch list and at least one
epoch, the epoch loop ends in the `NameError`. -/
theorem runEpochs_err (cfg : Config) (hst : cfg.short_test = false)
    (b : Batch) (rest : List Batch) (hb : cfg.batches = b :: rest)
    (st : Int) (ep m : Nat) :
    (runEpochs cfg st ep (m + 1)).2 =
      BatchExit.err (PyErr.nameError "optimizer") := by
  rw [runEpochs, hb, runBatches_err cfg hst st b rest]

/-- Outside short-test mode, with a non-empty dataset, a non-empty batch
list and at least one epoch, `mainBody` propagates the `NameError`. -/
theorem mainBody_err (cfg : Config) (hs : Nat) (params : Tensor)
    (pre : List Event) (hst : cfg.short_test = false)
    (b : Batch) (rest : List Batch) (hb : cfg.batches = b :: rest)
    (hlen : 0 < cfg.trainLen) (hne : 0 < cfg.num_epochs) :
    (mainBody cfg hs params pre).outcome =
      Outcome.raised (PyErr.nameError "optimizer") := by
  unfold mainBody
  rw [initialEpoch_pos _ hlen]
  dsimp only
  obtain ⟨m, hm⟩ := Nat.exists_eq_add_of_lt hne
  rw [Nat.sub_zero, show cfg.num_epochs = m + 1 by omega,
      runEpochs_err cfg hst b rest hb]
  rfl

/-- With an empty dataset `mainBody` raises `ZeroDivisionError` at the
`step // len(train_dataset)` computation, before any epoch. -/
theorem mainBody_zeroDiv (cfg : Config) (hs : Nat) (params : Tensor)
    (pre : List Event) (h : cfg.trainLen = 0) :
    (mainBody cfg hs params pre).outcome = Outcome.raised PyErr.zeroDivision ∧
    (mainBody cfg hs params pre).trace =
      pre ++ [Event.buildParaphraser, Event.buildTrainDataset,
              Event.buildDevDataset, Event.loadIdx2Word] := by
  unfold mainBody
  rw [h]
  exact ⟨rfl, rfl⟩

/-- The events before line 70 stay in `mainBody`'s trace. -/
theorem mainBody_pre_mem (cfg : Config) (hs : Nat) (params : Tensor)
    (pre : List Event) (e : Event) (he : e ∈ pre) :
    e ∈ (mainBody cfg hs params pre).trace := by
  unfold mainBody
  rcases hinit : initialEpoch cfg.trainLen with err | e0
  · exact List.mem_append_left _ he
  · exact List.mem_append_left _ (List.mem_append_left _ he)

end TraceLemmas

section Fixtures

/-- A concrete one-row batch used in witnesses and counterexamples. -/
def bW : Batch :=
  { cw_idxs := [[1, 2]], cc_idxs := [[0]], qw_idxs := [[3]], qc_idxs := [[0]]
    y1 := [0], y2 := [1], cphr_idxs := [[4, 5]], qphr_idxs := [[6, 0]]
    qphr_types := [[1]], ids := [7] }

/-- A concrete paraphraser forward: echoes its question phrase input. -/
def paraW : List Tensor → List Tensor → List Tensor → List Tensor :=
  fun q _ _ => q

/-- A concrete index-to-word mapping. -/
def idx2wordW : Int → String := fun _ => "w"

/-- Concrete run with no checkpoint path and short-test off: the error-exit
path. -/
def cfgExit : Config :=
  { load_path := "", short_test := false, hidden_size := 100, num_epochs := 2
    eval_steps := 1, trainLen := 1, batches := [bW], para := paraW
    idx2word := idx2wordW, bidafInit := [0, 0], bidafLoaded := [3, 4] }

/-- Concrete non-short-test training run: checkpoint loaded, two batches
queued, `eval_steps = 1` so the first batch (size 1) already satisfies the
evaluation trigger. -/
def cfgTrain : Config :=
  { load_path := "ckpt", short_test := false, hidden_size := 100
    num_epochs := 2, eval_steps := 1, trainLen := 2, batches := [bW, bW]
    para := paraW, idx2word := idx2wordW, bidafInit := [0, 0]
    bidafLoaded := [3, 4] }

/-- Concrete short-test run. -/
def cfgShort : Config :=
  { load_path := "", short_test := true, hidden_size := 100, num_epochs := 3
    eval_steps := 1, trainLen := 1, batches := [bW], para := paraW
    idx2word := idx2wordW, bidafInit := [0, 0], bidafLoaded := [3, 4] }

/-- Concrete run whose training loader yields no batches, so every epoch
iteration completes. -/
def cfgNil : Config :=
  { load_path := "ckpt", short_test := false, hidden_size := 100
    num_epochs := 3, eval_steps := 1, trainLen := 1, batches := []
    para := paraW, idx2word := idx2wordW, bidafInit := [0, 0]
    bidafLoaded := [3, 4] }

/-- Concrete short-test run over an empty training dataset. -/
def cfgEmpty : Config :=
  { load_path := "", short_test := true, hidden_size := 100, num_epochs := 2
    eval_steps := 1, trainLen := 0, batches := [], para := paraW
    idx2word := idx2wordW, bidafInit := [0, 0], bidafLoaded := [3, 4] }

end Fixtures

section Helpers

/-- The isolated `while epoch != args.num_epochs` counter, started at
`ep ≤ n`, exits after exactly `n - ep` iterations when given enough fuel. -/
theorem epochLoopFuel_exact (fuel : Nat) :
    ∀ ep n : Nat, ep ≤ n → n - ep < fuel →
      epochLoopFuel fuel ep n = some (n - ep) := by
  induction fuel with
  | zero => intro ep n h1 h2; omega
  | succ f ih =>
    intro ep n h1 h2
    rw [epochLoopFuel]
    by_cases he : ep = n
    · rw [if_pos he, he, Nat.sub_self]
    · rw [if_neg he, ih (ep + 1) n (by omega) (by omega)]
      have h3 : n - (ep + 1) + 1 = n - ep := by omega
      simp [h3]

/-- With a non-empty dataset and an empty batch loader, `mainBody` runs all
`num_epochs` iterations and returns. -/
theorem mainBody_nilBatches (cfg : Config) (hs : Nat) (params : Tensor)
    (pre : List Event) (hb : cfg.batches = []) (hlen : 0 < cfg.trainLen)
    (h0 : pre.countP Event.isEpochStart = 0) :
    (mainBody cfg hs params pre).trace.countP Event.isEpochStart =
      cfg.num_epochs ∧
    (mainBody cfg hs params pre).outcome = Outcome.returned := by
  unfold mainBody
  rw [initialEpoch_pos _ hlen]
  dsimp only
  have h2 := runEpochs_nil cfg hb cfg.eval_steps 0 (cfg.num_epochs - 0)
  constructor
  · rw [List.countP_append, List.countP_append, h0,
        show List.countP Event.isEpochStart
          [Event.buildParaphraser, Event.buildTrainDataset,
           Event.buildDevDataset, Event.loadIdx2Word] = 0 from rfl,
        h2.1]
    omega
  · rw [h2.2]
    rfl

end Helpers

section Claims

/-- C1: in every run of `main` with an empty `args.load_path` and
`args.short_test` false, the process logs an error and exits with status 1;
its whole trace consists of the pre-gate events (so the `Paraphraser`, the
datasets and the training loop are never reached); and this is the only
explicit error path: no run of any other configuration produces an
`exit(code)` outcome (the embedding has no exception handler anywhere, so
every other failure propagates as a `raised` outcome). -/
theorem C1_error_exit (cfg : Config)
    (h1 : cfg.short_test = false) (h2 : cfg.load_path = "") :
    (runMain cfg).outcome = Outcome.exited 1 ∧
    Event.logError ∈ (runMain cfg).trace ∧
    (∀ e ∈ (runMain cfg).trace, e.isPreGateEv = true) ∧
    (∀ cfg2 : Config, ∀ c : Nat,
      (runMain cfg2).outcome = Outcome.exited c →
      cfg2.short_test = false ∧ cfg2.load_path = "" ∧ c = 1) := by
  have hrw : runMain cfg =
      ⟨[Event.logInfo, Event.buildBiDAF] ++ [Event.logError],
       Outcome.exited 1, cfg.bidafInit, cfg.hidden_size⟩ := by
    unfold runMain
    rw [if_neg (by simp [h1]), if_pos h2]
  refine ⟨by rw [hrw], by rw [hrw]; simp, ?_, ?_⟩
  · rw [hrw]
    show ∀ e ∈ [Event.logInfo, Event.buildBiDAF] ++ [Event.logError],
      e.isPreGateEv = true
    decide
  · intro cfg2 c h
    unfold runMain at h
    by_cases hst : cfg2.short_test = true
    · rw [if_pos hst] at h
      exact absurd h (mainBody_not_exited _ _ _ _ c)
    · rw [if_neg hst] at h
      by_cases hl : cfg2.load_path = ""
      · rw [if_pos hl] at h
        have h2 : Outcome.exited 1 = Outcome.exited c := h
        refine ⟨Bool.not_eq_true _ |>.mp hst, hl, ?_⟩
        injection h2 with h3
        omega
      · rw [if_neg hl] at h
        exact absurd h (mainBody_not_exited _ _ _ _ c)

/-- C1 witness at the concrete configuration `cfgExit`. -/
theorem C1_error_exit_witness :
    (runMain cfgExit).outcome = Outcome.exited 1 ∧
    Event.logError ∈ (runMain cfgExit).trace ∧
    (∀ e ∈ (runMain cfgExit).trace, e.isPreGateEv = true) ∧
    (∀ cfg2 : Config, ∀ c : Nat,
      (runMain cfg2).outcome = Outcome.exited c →
      cfg2.short_test = false ∧ cfg2.load_path = "" ∧ c = 1) :=
  C1_error_exit cfgExit rfl rfl

/-- C2 is false on the code: in the concrete non-short-test run `cfgTrain`
(checkpoint loaded, two batches queued) the first batch raises
`NameError: name 'optimizer' is not defined` at line 149 — the optimizer,
scheduler, EMA and `model` definitions at lines 95-105 are commented out —
so no span loss is computed, nothing is backpropagated, no gradient is
clipped, no optimizer or scheduler step runs, no EMA update happens, and the
loop never continues to the second batch (exactly one paraphraser forward
appears in the trace). -/
theorem C2_counterexample :
    (runMain cfgTrain).outcome =
      Outcome.raised (PyErr.nameError "optimizer") ∧
    (runMain cfgTrain).trace.countP Event.isParaForward = 1 ∧
    Event.lossBackward ∉ (runMain cfgTrain).trace ∧
    Event.clipGrad ∉ (runMain cfgTrain).trace ∧
    Event.optStep ∉ (runMain cfgTrain).trace ∧
    Event.schedStep ∉ (runMain cfgTrain).trace ∧
    Event.emaUpdate ∉ (runMain cfgTrain).trace := by decide

/-- C2 amended: in every non-short-test run that reaches the training loop
with at least one batch and one epoch, the first batch's processing raises
`NameError` on the undefined `optimizer` (its definition is commented out),
and no loss computation, backward pass, gradient clipping, optimizer step,
scheduler step or EMA update ever occurs. -/
theorem C2_training_crash (cfg : Config) (h1 : cfg.short_test = false)
    (h2 : cfg.load_path ≠ "") (h3 : 0 < cfg.trainLen)
    (h4 : 0 < cfg.num_epochs) (b : Batch) (rest : List Batch)
    (hb : cfg.batches = b :: rest) :
    (runMain cfg).outcome = Outcome.raised (PyErr.nameError "optimizer") ∧
    Event.lossBackward ∉ (runMain cfg).trace ∧
    Event.clipGrad ∉ (runMain cfg).trace ∧
    Event.optStep ∉ (runMain cfg).trace ∧
    Event.schedStep ∉ (runMain cfg).trace ∧
    Event.emaUpdate ∉ (runMain cfg).trace := by
  refine ⟨?_, runMain_not_mem cfg _ rfl rfl rfl,
          runMain_not_mem cfg _ rfl rfl rfl,
          runMain_not_mem cfg _ rfl rfl rfl,
          runMain_not_mem cfg _ rfl rfl rfl,
          runMain_not_mem cfg _ rfl rfl rfl⟩
  unfold runMain
  rw [if_neg (by simp [h1]), if_neg h2]
  exact mainBody_err cfg _ _ _ h1 b rest hb h3 h4

/-- C2 amended witness at the concrete configuration `cfgTrain`. -/
theorem C2_training_crash_witness :
    (runMain cfgTrain).outcome =
      Outcome.raised (PyErr.nameError "optimizer") ∧
    Event.lossBackward ∉ (runMain cfgTrain).trace ∧
    Event.clipGrad ∉ (runMain cfgTrain).trace ∧
    Event.optStep ∉ (runMain cfgTrain).trace ∧
    Event.schedStep ∉ (runMain cfgTrain).trace ∧
    Event.emaUpdate ∉ (runMain cfgTrain).trace :=
  C2_training_crash cfgTrain rfl (by decide) (by decide) (by decide)
    bW [bW] rfl

/-- C3: the epoch loop of the training driver — `while epoch !=
args.num_epochs` with the counter initialised to
`step // len(train_dataset) = 0` and incremented once per iteration —
executes exactly `args.num_epochs` iterations and then exits: the isolated
loop counter reaches the count after exactly `num_epochs` steps, and any run
whose loader yields no batches (so each iteration's body completes without
an early exit) logs exactly `num_epochs` epoch starts and returns. -/
theorem C3_epoch_loop (cfg : Config) (fuel : Nat)
    (hfuel : cfg.num_epochs < fuel)
    (hgate : cfg.short_test = true ∨ cfg.load_path ≠ "")
    (hlen : 0 < cfg.trainLen) (hb : cfg.batches = []) :
    epochLoopFuel fuel 0 cfg.num_epochs = some cfg.num_epochs ∧
    (runMain cfg).trace.countP Event.isEpochStart = cfg.num_epochs ∧
    (runMain cfg).outcome = Outcome.returned ∧
    initialEpoch cfg.trainLen = Except.ok 0 := by
  have hloop := epochLoopFuel_exact fuel 0 cfg.num_epochs (Nat.zero_le _)
    (by omega)
  rw [Nat.sub_zero] at hloop
  refine ⟨hloop, ?_, ?_, initialEpoch_pos _ hlen⟩
    <;> unfold runMain
  all_goals by_cases hst : cfg.short_test = true
  · rw [if_pos hst]
    exact (mainBody_nilBatches cfg 5 cfg.bidafInit
      [Event.logInfo, Event.buildBiDAF] hb hlen rfl).1
  · have hl : cfg.load_path ≠ "" := by
      rcases hgate with hg | hg
      · exact absurd hg hst
      · exact hg
    rw [if_neg hst, if_neg hl]
    exact (mainBody_nilBatches cfg cfg.hidden_size cfg.bidafLoaded
      ([Event.logInfo, Event.buildBiDAF] ++
       [Event.loadCheckpoint cfg.load_path, Event.bidafEvalMode])
      hb hlen rfl).1
  · rw [if_pos hst]
    exact (mainBody_nilBatches cfg 5 cfg.bidafInit
      [Event.logInfo, Event.buildBiDAF] hb hlen rfl).2
  · have hl : cfg.load_path ≠ "" := by
      rcases hgate with hg | hg
      · exact absurd hg hst
      · exact hg
    rw [if_neg hst, if_neg hl]
    exact (mainBody_nilBatches cfg cfg.hidden_size cfg.bidafLoaded
      ([Event.logInfo, Event.buildBiDAF] ++
       [Event.loadCheckpoint cfg.load_path, Event.bidafEvalMode])
      hb hlen rfl).2

/-- C3 witness at the concrete configuration `cfgNil` (three epochs). -/
theorem C3_epoch_loop_witness :
    epochLoopFuel 4 0 cfgNil.num_epochs = some cfgNil.num_epochs ∧
    (runMain cfgNil).trace.countP Event.isEpochStart = cfgNil.num_epochs ∧
    (runMain cfgNil).outcome = Outcome.returned ∧
    initialEpoch cfgNil.trainLen = Except.ok 0 :=
  C3_epoch_loop cfgNil 4 (by decide) (Or.inr (by decide)) (by decide) rfl

/-- C4: the `results` value returned by `evaluate` is an ordered mapping
whose keys are exactly `NLL`, `F1`, `EM` in that order when `use_squad_v2`
is false, and exactly `NLL`, `F1`, `EM`, `AvNA` in that order when it is
true — `OrderedDict` preserves the insertion order of the `results_list`
assembled at lines 243-248, and these keys are pairwise distinct. -/
theorem C4_result_keys {α : Type} (useV2 : Bool) (nll f1 em avna : α) :
    (resultsList useV2 nll f1 em avna).map Prod.fst =
      (if useV2 then ["NLL", "F1", "EM", "AvNA"]
       else ["NLL", "F1", "EM"]) ∧
    ((resultsList useV2 nll f1 em avna).map Prod.fst).Nodup := by
  cases useV2
  · exact ⟨rfl, show (["NLL", "F1", "EM"] : List String).Nodup by decide⟩
  · exact ⟨rfl,
      show (["NLL", "F1", "EM", "AvNA"] : List String).Nodup by decide⟩

/-- C5 is false on the code: at the concrete input — model initially in
training mode with gradients enabled, and an iteration that raises — the
exception propagates out of `evaluate` with the model still in eval mode:
`model.train()` at line 240 sits after the `with` block with no
`try`/`finally`, so the training-mode flag is not restored on the exception
path. -/
theorem C5_counterexample :
    ¬((runEvaluateModes ⟨true, true⟩ true).final.trainMode = true) ∧
    (runEvaluateModes ⟨true, true⟩ true).raised = true := by decide

/-- C5 amended: `evaluate` clears the training flag on entry and disables
gradient tracking for the duration of the held-out iteration; whenever it
returns normally the model is back in training mode, and the gradient flag
is restored in all cases (the `torch.no_grad` context manager restores it
even on an exception); but when the iteration raises, the model is left in
eval mode — the training flag is restored only on normal return. -/
theorem C5_eval_modes (s0 : TorchState) (r : Bool) :
    (runEvaluateModes s0 r).duringGrad = false ∧
    ((runEvaluateModes s0 r).raised = false →
      (runEvaluateModes s0 r).final.trainMode = true) ∧
    ((runEvaluateModes s0 r).raised = true →
      (runEvaluateModes s0 r).final.trainMode = false) ∧
    (runEvaluateModes s0 r).final.gradEnabled = s0.gradEnabled := by
  cases r
  · refine ⟨rfl, fun _ => rfl, fun h => ?_, rfl⟩
    cases h
  · refine ⟨rfl, fun h => ?_, fun _ => rfl, rfl⟩
    cases h

/-- C5 amended witness: a normal return from the concrete initial state
restores training mode. -/
theorem C5_eval_modes_witness :
    (runEvaluateModes ⟨true, true⟩ false).final.trainMode = true :=
  (C5_eval_modes ⟨true, true⟩ false).2.1 rfl

/-- C6 is false on the code: at the concrete run `cfgTrain` the counter
condition is met on the very first batch (`eval_steps = 1`, batch size 1, so
`stepDecr` triggers), yet neither `evaluate` nor a checkpoint save is ever
invoked — the run dies with the `NameError` at line 149 before the
`steps_till_eval` logic at lines 174-186 can execute. -/
theorem C6_counterexample :
    (stepDecr cfgTrain.eval_steps cfgTrain.eval_steps 1).1 = true ∧
    Event.evaluateCall ∉ (runMain cfgTrain).trace ∧
    Event.saverSave ∉ (runMain cfgTrain).trace ∧
    (runMain cfgTrain).outcome =
      Outcome.raised (PyErr.nameError "optimizer") := by decide

/-- C6 amended: the counter mechanism of lines 174-176 triggers exactly when
the examples consumed since the last reset reach or exceed `args.eval_steps`
(the counter holds `eval_steps - consumed`), and on a trigger it is reset to
`args.eval_steps`; but the mechanism is unreachable — in no run of `main`
does an `evaluate` invocation or a checkpoint save occur, because every
non-short-test batch raises `NameError` at line 149 first (and short-test
runs return before line 149). -/
theorem C6_eval_trigger (evalSteps consumed : Int) (bs : Nat)
    (cfg : Config) :
    ((stepDecr evalSteps (evalSteps - consumed) bs).1 = true ↔
      evalSteps ≤ consumed + bs) ∧
    ((stepDecr evalSteps (evalSteps - consumed) bs).1 = true →
      (stepDecr evalSteps (evalSteps - consumed) bs).2 = evalSteps) ∧
    Event.evaluateCall ∉ (runMain cfg).trace ∧
    Event.saverSave ∉ (runMain cfg).trace := by
  refine ⟨?_, ?_, runMain_not_mem cfg _ rfl rfl rfl,
          runMain_not_mem cfg _ rfl rfl rfl⟩
  · unfold stepDecr
    dsimp only
    split_ifs with h
    · simp only [true_iff]
      omega
    · simp only [Bool.false_eq_true, false_iff]
      omega
  · unfold stepDecr
    dsimp only
    split_ifs with h
    · intro _
      rfl
    · intro hh
      exact absurd hh (by simp)

/-- C6 amended witness: with `eval_steps = 2`, one example already consumed
and a batch of size 1, the trigger fires and the counter resets to 2. -/
theorem C6_eval_trigger_witness :
    (stepDecr 2 (2 - 1) 1).1 = true ∧ (stepDecr 2 (2 - 1) 1).2 = 2 :=
  ⟨by decide, (C6_eval_trigger 2 1 1 cfgShort).2.1 (by decide)⟩

/-- C7 is false on the code: in the concrete training run `cfgTrain` the
paraphraser forward consumes exactly the raw `qphr_idxs`, `qphr_types`,
`cphr_idxs` tensors of the batch, and no forward pass of the BiDAF model
occurs anywhere in the run — the loaded BiDAF model is never invoked in the
training loop (the only model call there, `model(cw_idxs, qw_idxs)` at
line 152, names the undefined `model`, not `bidaf_model`, and is never
reached). -/
theorem C7_counterexample :
    Event.paraForward bW.qphr_idxs bW.qphr_types bW.cphr_idxs ∈
      (runMain cfgTrain).trace ∧
    (∀ e ∈ (runMain cfgTrain).trace, e.isBidafForward = false) := by decide

/-- C7 amended: in every run, every paraphraser forward pass consumes
exactly the raw question/context phrase-index tensors of one of the loader's
batches, and no BiDAF forward pass ever occurs, so the paraphraser never
consumes BiDAF output. -/
theorem C7_para_inputs (cfg : Config) :
    (∀ q qt c, Event.paraForward q qt c ∈ (runMain cfg).trace →
      ∃ b ∈ cfg.batches,
        q = b.qphr_idxs ∧ qt = b.qphr_types ∧ c = b.cphr_idxs) ∧
    (∀ e ∈ (runMain cfg).trace, e.isBidafForward = false) := by
  refine ⟨fun q qt c h => runMain_paraForward cfg q qt c h, ?_⟩
  intro e he
  cases e <;>
    first
      | rfl
      | (rcases runMain_events cfg _ he with h | h | h <;> cases h)

/-- C7 amended witness: in the concrete run `cfgTrain`, the recorded
paraphraser inputs are the raw phrase tensors of a loader batch. -/
theorem C7_para_inputs_witness :
    ∃ b ∈ cfgTrain.batches,
      bW.qphr_idxs = b.qphr_idxs ∧ bW.qphr_types = b.qphr_types ∧
        bW.cphr_idxs = b.cphr_idxs :=
  (C7_para_inputs cfgTrain).1 bW.qphr_idxs bW.qphr_types bW.cphr_idxs
    (by decide)

/-- C8: in every checkpoint-loading run (short-test off, `load_path`
supplied) the BiDAF model is frozen: its parameters at process exit are
exactly the parameters restored from the checkpoint, the model is put in
eval mode, and no optimizer step, EMA update or backward pass ever occurs
in `main` or `evaluate` (no optimizer exists at all in the executed
program). -/
theorem C8_bidaf_frozen (cfg : Config) (h1 : cfg.short_test = false)
    (h2 : cfg.load_path ≠ "") :
    (runMain cfg).bidafParams = cfg.bidafLoaded ∧
    Event.bidafEvalMode ∈ (runMain cfg).trace ∧
    Event.optStep ∉ (runMain cfg).trace ∧
    Event.emaUpdate ∉ (runMain cfg).trace ∧
    Event.lossBackward ∉ (runMain cfg).trace := by
  have hrw : runMain cfg = mainBody cfg cfg.hidden_size cfg.bidafLoaded
      ([Event.logInfo, Event.buildBiDAF] ++
       [Event.loadCheckpoint cfg.load_path, Event.bidafEvalMode]) := by
    unfold runMain
    rw [if_neg (by simp [h1]), if_neg h2]
  refine ⟨?_, ?_, runMain_not_mem cfg _ rfl rfl rfl,
          runMain_not_mem cfg _ rfl rfl rfl,
          runMain_not_mem cfg _ rfl rfl rfl⟩
  · rw [hrw]
    exact mainBody_params cfg _ _ _
  · rw [hrw]
    exact mainBody_pre_mem cfg _ _ _ _ (by simp)

/-- C8 witness at the concrete configuration `cfgTrain`. -/
theorem C8_bidaf_frozen_witness :
    (runMain cfgTrain).bidafParams = cfgTrain.bidafLoaded ∧
    Event.bidafEvalMode ∈ (runMain cfgTrain).trace ∧
    Event.optStep ∉ (runMain cfgTrain).trace ∧
    Event.emaUpdate ∉ (runMain cfgTrain).trace ∧
    Event.lossBackward ∉ (runMain cfgTrain).trace :=
  C8_bidaf_frozen cfgTrain rfl (by decide)

/-- C9: `main` requires a non-empty training dataset: with any configuration
that gets past the checkpoint gate, an empty dataset makes the run raise
`ZeroDivisionError` at `epoch = step // len(train_dataset)` (line 110)
before any epoch starts or any batch is processed, while for a non-empty
dataset the division is defined and yields 0. -/
theorem C9_empty_dataset (cfg : Config)
    (hgate : cfg.short_test = true ∨ cfg.load_path ≠ "") :
    (cfg.trainLen = 0 →
      (runMain cfg).outcome = Outcome.raised PyErr.zeroDivision ∧
      (runMain cfg).trace.countP Event.isEpochStart = 0 ∧
      (runMain cfg).trace.countP Event.isParaForward = 0) ∧
    (0 < cfg.trainLen → initialEpoch cfg.trainLen = Except.ok 0) := by
  refine ⟨?_, fun h => initialEpoch_pos _ h⟩
  intro h0
  unfold runMain
  by_cases hst : cfg.short_test = true
  · rw [if_pos hst]
    have hz := mainBody_zeroDiv cfg 5 cfg.bidafInit
      [Event.logInfo, Event.buildBiDAF] h0
    exact ⟨hz.1, by rw [hz.2]; rfl, by rw [hz.2]; rfl⟩
  · have hl : cfg.load_path ≠ "" := by
      rcases hgate with hg | hg
      · exact absurd hg hst
      · exact hg
    rw [if_neg hst, if_neg hl]
    have hz := mainBody_zeroDiv cfg cfg.hidden_size cfg.bidafLoaded
      ([Event.logInfo, Event.buildBiDAF] ++
       [Event.loadCheckpoint cfg.load_path, Event.bidafEvalMode]) h0
    exact ⟨hz.1, by rw [hz.2]; rfl, by rw [hz.2]; rfl⟩

/-- C9 witness at the concrete empty-dataset configuration `cfgEmpty`. -/
theorem C9_empty_dataset_witness :
    (runMain cfgEmpty).outcome = Outcome.raised PyErr.zeroDivision ∧
    (runMain cfgEmpty).trace.countP Event.isEpochStart = 0 ∧
    (runMain cfgEmpty).trace.countP Event.isParaForward = 0 :=
  (C9_empty_dataset cfgEmpty (Or.inl rfl)).1 rfl

/-- C10: every short-test run over a non-empty dataset returns normally
having skipped the checkpoint load, forced `hidden_size` to 5, processed at
most one training batch — running only the paraphraser forward and printing
the decoded non-zero token predictions (each printed sentence is the
`idx2word` decoding of the non-zero entries of a paraphraser output row) —
and performed no loss computation, no backward pass, no parameter update and
no evaluation. -/
theorem C10_short_test (cfg : Config) (h1 : cfg.short_test = true)
    (hlen : 0 < cfg.trainLen) :
    (runMain cfg).outcome = Outcome.returned ∧
    (runMain cfg).hidden_size = 5 ∧
    (∀ p, Event.loadCheckpoint p ∉ (runMain cfg).trace) ∧
    (runMain cfg).trace.countP Event.isParaForward ≤ 1 ∧
    Event.lossBackward ∉ (runMain cfg).trace ∧
    Event.optStep ∉ (runMain cfg).trace ∧
    Event.emaUpdate ∉ (runMain cfg).trace ∧
    Event.evaluateCall ∉ (runMain cfg).trace ∧
    (∀ ws, Event.printSentence ws ∈ (runMain cfg).trace →
      ∃ b ∈ cfg.batches,
        ∃ p ∈ cfg.para b.qphr_idxs b.qphr_types b.cphr_idxs,
          ws = decode cfg.idx2word p) := by
  have hrw : runMain cfg =
      mainBody cfg 5 cfg.bidafInit [Event.logInfo, Event.buildBiDAF] := by
    unfold runMain
    rw [if_pos h1]
  have hmb : mainBody cfg 5 cfg.bidafInit
      [Event.logInfo, Event.buildBiDAF] =
      ⟨([Event.logInfo, Event.buildBiDAF] ++
        [Event.buildParaphraser, Event.buildTrainDataset,
         Event.buildDevDataset, Event.loadIdx2Word]) ++
        (runEpochs cfg cfg.eval_steps 0 (cfg.num_epochs - 0)).1,
       exitToOutcome (runEpochs cfg cfg.eval_steps 0 (cfg.num_epochs - 0)).2,
       cfg.bidafInit, 5⟩ := by
    unfold mainBody
    rw [initialEpoch_pos _ hlen]
  have hsh := runEpochs_short cfg h1 cfg.eval_steps 0 (cfg.num_epochs - 0)
  refine ⟨?_, ?_, ?_, ?_, runMain_not_mem cfg _ rfl rfl rfl,
          runMain_not_mem cfg _ rfl rfl rfl,
          runMain_not_mem cfg _ rfl rfl rfl,
          runMain_not_mem cfg _ rfl rfl rfl,
          fun ws h => runMain_printSentence cfg ws h⟩
  · rw [hrw, hmb]
    rcases hsh.2 with h | h <;> rw [h] <;> rfl
  · rw [hrw]
    exact mainBody_hs cfg _ _ _
  · intro p hp
    rw [hrw, hmb] at hp
    rcases List.mem_append.mp hp with h | h
    · simp at h
    · rcases runEpochs_events cfg cfg.eval_steps 0 (cfg.num_epochs - 0)
        (Event.loadCheckpoint p) h with h2 | h2 <;> cases h2
  · rw [hrw, hmb]
    dsimp only
    rw [List.countP_append,
        show List.countP Event.isParaForward
          ([Event.logInfo, Event.buildBiDAF] ++
           [Event.buildParaphraser, Event.buildTrainDataset,
            Event.buildDevDataset, Event.loadIdx2Word]) = 0 from rfl]
    rw [Nat.zero_add]
    exact hsh.1

/-- C10 witness at the concrete short-test configuration `cfgShort`. -/
theorem C10_short_test_witness :
    (runMain cfgShort).outcome = Outcome.returned ∧
    (runMain cfgShort).hidden_size = 5 ∧
    (∀ p, Event.loadCheckpoint p ∉ (runMain cfgShort).trace) ∧
    (runMain cfgShort).trace.countP Event.isParaForward ≤ 1 ∧
    Event.lossBackward ∉ (runMain cfgShort).trace ∧
    Event.optStep ∉ (runMain cfgShort).trace ∧
    Event.emaUpdate ∉ (runMain cfgShort).trace ∧
    Event.evaluateCall ∉ (runMain cfgShort).trace ∧
    (∀ ws, Event.printSentence ws ∈ (runMain cfgShort).trace →
      ∃ b ∈ cfgShort.batches,
        ∃ p ∈ cfgShort.para b.qphr_idxs b.qphr_types b.cphr_idxs,
          ws = decode cfgShort.idx2word p) :=
  C10_short_test cfgShort rfl (by decide)

end Claims

end TrainPara
